import Mathlib

/-!
Verification of the Tutorial CRUD REST API (Node.js/Express/Mongoose backend).

The repository ships its test suite (`test/tutorial.test.js`) together with a
specification of the six endpoints.  The Query Translator (controller), Route
Table and entity schema are modelled here: the schema's serialization
(`toJSON`, dropping the internal `__v` version field and exposing `_id` as
`id`) follows the schema declared at the top of `test/tutorial.test.js`; the
controller operations and the route dispatch are modelled from the spec's
operation table (§4.1) and endpoint table (§6).

The storage layer's native key type (MongoDB ObjectId) is modelled as a
24-hex-character string; an id the storage layer cannot parse into that type
is "malformed" and surfaces as a 500, while a well-formed id matching no
record surfaces as a 404 (spec §4.1, error-classification rule; §7).
-/

set_option autoImplicit false

namespace TutorialApi

/-- A hexadecimal digit character, the alphabet of MongoDB ObjectId strings. -/
def isHexChar (c : Char) : Bool :=
  ('0' ≤ c && c ≤ '9') || ('a' ≤ c && c ≤ 'f') || ('A' ≤ c && c ≤ 'F')

/-- Modelled from the spec: a "structurally valid identifier" is one the
storage layer can parse into its native key type (MongoDB ObjectId: a
24-character hexadecimal string).  The files `app/models/tutorial.model.js`
and `app/controllers/tutorial.controller.js` are not in the repository
snapshot; validity of an id is modelled after MongoDB's ObjectId format. -/
def validId (s : String) : Bool :=
  s.length == 24 && s.toList.all isHexChar

/-- Modelled from the spec: parsing a path-parameter string into the storage
layer's native key type.  Fails exactly on malformed identifiers. -/
def parseObjectId (s : String) : Option String :=
  if validId s then some s else none

/-- The sixteen lowercase hexadecimal digit characters. -/
def hexChars : List Char :=
  "0123456789abcdef".toList

/-- The hexadecimal digit character for a value, `'0'` out of range. -/
def hexDigit (n : Nat) : Char :=
  hexChars.getD n '0'

/-- Modelled from the spec: the database-assigned identifier (spec §3: `id` is
"assigned exactly once, at creation, by the storage layer").  The `n`-th
generated id is `n` rendered as a 24-digit hexadecimal string, mirroring a
MongoDB ObjectId. -/
def genId (n : Nat) : String :=
  String.mk ((List.range 24).map (fun i => hexDigit (n / 16 ^ (23 - i) % 16)))

/-- A persisted Tutorial document, as stored by the storage layer.
`_id` is the storage key; `__v` is the internal version field that the
serializer strips (schema in `test/tutorial.test.js`, lines 6–19). -/
structure Tutorial where
  _id : String
  title : String
  description : Option String
  published : Bool
  createdAt : Nat
  updatedAt : Nat
  __v : Nat
deriving DecidableEq, Repr

/-- The serialized (JSON) form of a Tutorial: `_id` is exposed as `id`, and
the internal version field `__v` is absent (schema `toJSON` method,
`test/tutorial.test.js` lines 15–19). -/
structure TutorialJSON where
  id : String
  title : String
  description : Option String
  published : Bool
  createdAt : Nat
  updatedAt : Nat
deriving DecidableEq, Repr

/-- Serialization of a stored document, from the schema's `toJSON` method in
`test/tutorial.test.js`: drop `__v`, rename `_id` to `id`, keep the rest. -/
def toJSON (t : Tutorial) : TutorialJSON :=
  { id := t._id
    title := t.title
    description := t.description
    published := t.published
    createdAt := t.createdAt
    updatedAt := t.updatedAt }

/-- The storage layer's state: the persisted collection plus the counter the
modelled storage layer draws fresh ids from. -/
structure DB where
  docs : List Tutorial
  nextId : Nat
deriving DecidableEq, Repr

/-- A JSON request body for create/update: each Tutorial field optionally
present. -/
structure ReqBody where
  title : Option String
  description : Option String
  published : Option Bool
deriving DecidableEq, Repr

/-- The empty JSON object `{}` as a request body: no field present. -/
def emptyBody : ReqBody :=
  { title := none, description := none, published := none }

/-- A response body: nothing, a `{message: ...}` object, a serialized record,
or an array of serialized records. -/
inductive RespBody where
  | empty
  | message (msg : String)
  | record (t : TutorialJSON)
  | records (ts : List TutorialJSON)
deriving DecidableEq, Repr

/-- An HTTP response: status code and body. -/
structure Response where
  status : Nat
  body : RespBody
deriving DecidableEq, Repr

/-- Case-insensitive substring test on the list-of-characters level:
does `p` start `l`? -/
def isStartOf : List Char → List Char → Bool
  | [], _ => true
  | _ :: _, [] => false
  | a :: as, b :: bs => a == b && isStartOf as bs

/-- The characters of a string, lowercased. -/
def lowerList (s : String) : List Char :=
  s.toList.map Char.toLower

/-- Modelled from the spec: the List operation's title filter matches
"documents whose title contains it as a case-insensitive substring"
(spec §4.1, List row).  `containsCI hay pat` is true iff the lowercased
`pat` occurs contiguously inside the lowercased `hay`. -/
def containsCI (hay pat : String) : Bool :=
  let h := lowerList hay
  let p := lowerList pat
  (List.range (h.length + 1)).any (fun i => isStartOf p (h.drop i))

/-- Does the collection hold a document with storage key `oid`? -/
def existsId (db : DB) (oid : String) : Bool :=
  db.docs.any (fun d => d._id == oid)

/-- Modelled from the spec (§4.1 Create row; controller file
`app/controllers/tutorial.controller.js` is not in the snapshot): validate
that `title` is present and non-empty, else 400 `"Content can not be
empty!"`; on success insert one document with `published` forced to `false`
when absent, and respond 200 with the created record serialized. -/
def create (db : DB) (now : Nat) (body : Option ReqBody) : DB × Response :=
  match body.bind ReqBody.title with
  | none => (db, ⟨400, .message "Content can not be empty!"⟩)
  | some t =>
    if t = "" then
      (db, ⟨400, .message "Content can not be empty!"⟩)
    else
      let doc : Tutorial :=
        { _id := genId db.nextId
          title := t
          description := body.bind ReqBody.description
          published := (body.bind ReqBody.published).getD false
          createdAt := now
          updatedAt := now
          __v := 0 }
      ({ docs := db.docs ++ [doc], nextId := db.nextId + 1 },
       ⟨200, .record (toJSON doc)⟩)

/-- Modelled from the spec (§4.1 List row): find all documents; when the
`title` query parameter is present, keep those whose title contains it as a
case-insensitive substring. -/
def findAll (db : DB) (queryTitle : Option String) : Response :=
  match queryTitle with
  | none => ⟨200, .records (db.docs.map toJSON)⟩
  | some x => ⟨200, .records ((db.docs.filter (fun d => containsCI d.title x)).map toJSON)⟩

/-- Modelled from the spec (§4.1 List Published row): find all documents
where `published == true`. -/
def findAllPublished (db : DB) : Response :=
  ⟨200, .records ((db.docs.filter (fun d => d.published)).map toJSON)⟩

/-- Modelled from the spec (§4.1 Get by Id row): 500
`"Error retrieving Tutorial with id=<id>"` on a malformed id, 404
`"Not found Tutorial with id <id>."` when no document matches, else 200 with
the serialized record. -/
def findOne (db : DB) (raw : String) : Response :=
  match parseObjectId raw with
  | none => ⟨500, .message ("Error retrieving Tutorial with id=" ++ raw)⟩
  | some oid =>
    match db.docs.find? (fun d => d._id == oid) with
    | some d => ⟨200, .record (toJSON d)⟩
    | none => ⟨404, .message ("Not found Tutorial with id " ++ raw ++ ".")⟩

/-- Merge the supplied fields of an update body over an existing document;
`updatedAt` is refreshed by the storage layer (spec §3, §4.1 Update row). -/
def applyUpdate (b : ReqBody) (now : Nat) (d : Tutorial) : Tutorial :=
  { d with
    title := b.title.getD d.title
    description := match b.description with
      | some s => some s
      | none => d.description
    published := b.published.getD d.published
    updatedAt := now }

/-- Modelled from the spec (§4.1 Update by Id row): 400
`"Data to update can not be empty!"` when the body is absent/null (an empty
object is a valid no-op update); 500 `"Error updating Tutorial with id=<id>"`
on a malformed id; 404 `"Cannot update Tutorial with id=<id>. Maybe Tutorial
was not found!"` when no document matches; else merge the supplied fields
over the document and respond 200. -/
def update (db : DB) (now : Nat) (raw : String) (body : Option ReqBody) :
    DB × Response :=
  match body with
  | none => (db, ⟨400, .message "Data to update can not be empty!"⟩)
  | some b =>
    match parseObjectId raw with
    | none => (db, ⟨500, .message ("Error updating Tutorial with id=" ++ raw)⟩)
    | some oid =>
      if existsId db oid then
        ({ db with docs := db.docs.map (fun d => if d._id == oid then applyUpdate b now d else d) },
         ⟨200, .message "Tutorial was updated successfully."⟩)
      else
        (db, ⟨404, .message ("Cannot update Tutorial with id=" ++ raw ++ ". Maybe Tutorial was not found!")⟩)

/-- Modelled from the spec (§4.1 Delete by Id row): 500
`"Could not delete Tutorial with id=<id>"` on a malformed id; 404
`"Cannot delete Tutorial with id=<id>. Maybe Tutorial was not found!"` when
no document matched; else remove the document and respond 200
`"Tutorial was deleted successfully!"`. -/
def deleteById (db : DB) (raw : String) : DB × Response :=
  match parseObjectId raw with
  | none => (db, ⟨500, .message ("Could not delete Tutorial with id=" ++ raw)⟩)
  | some oid =>
    if existsId db oid then
      ({ db with docs := db.docs.filter (fun d => !(d._id == oid)) },
       ⟨200, .message "Tutorial was deleted successfully!"⟩)
    else
      (db, ⟨404, .message ("Cannot delete Tutorial with id=" ++ raw ++ ". Maybe Tutorial was not found!")⟩)

/-- Modelled from the spec (§4.1 Delete All row): delete every document and
respond 200 `"<N> Tutorials were deleted successfully!"` where N is the
count actually removed. -/
def deleteAll (db : DB) : DB × Response :=
  ({ db with docs := [] },
   ⟨200, .message (Nat.repr db.docs.length ++ " Tutorials were deleted successfully!")⟩)

/-- HTTP methods used by the route table. -/
inductive Method where
  | get
  | post
  | put
  | delete
deriving DecidableEq, Repr

/-- A structured HTTP request, as the server runtime hands it to the route
table: method, path segments, optional `title` query parameter, optional
JSON body. -/
structure Request where
  method : Method
  path : List String
  queryTitle : Option String
  body : Option ReqBody

/-- Modelled from the spec (§4.2 Route Table, §6 endpoint table): static
dispatch of (method, path) to exactly one operation.  The fixed path
`GET /api/tutorials/published` is matched before the parameterized
`GET /api/tutorials/:id`, as in the endpoint table's order.  Unmatched
requests get the platform's plain 404. -/
def handle (db : DB) (now : Nat) (req : Request) : DB × Response :=
  match req.method, req.path with
  | .post, ["api", "tutorials"] => create db now req.body
  | .get, ["api", "tutorials"] => (db, findAll db req.queryTitle)
  | .get, ["api", "tutorials", seg] =>
    if seg = "published" then (db, findAllPublished db)
    else (db, findOne db seg)
  | .put, ["api", "tutorials", idStr] => update db now idStr req.body
  | .delete, ["api", "tutorials", idStr] => deleteById db idStr
  | .delete, ["api", "tutorials"] => deleteAll db
  | _, _ => (db, ⟨404, .empty⟩)

/-! ### Helper lemmas -/

/-- `isStartOf p l` decides whether `p` is a prefix of `l`. -/
theorem isStartOf_iff (p l : List Char) :
    isStartOf p l = true ↔ ∃ r, p ++ r = l := by
  induction p generalizing l with
  | nil => simp [isStartOf]
  | cons a as ih =>
    cases l with
    | nil => simp [isStartOf]
    | cons b bs =>
      simp only [isStartOf, Bool.and_eq_true, beq_iff_eq, ih, List.cons_append,
        List.cons.injEq]
      constructor
      · rintro ⟨rfl, r, rfl⟩
        exact ⟨r, rfl, rfl⟩
      · rintro ⟨r, rfl, rfl⟩
        exact ⟨rfl, r, rfl⟩

/-- Dropping an appended list's left part recovers its right part. -/
theorem drop_len_append (s l : List Char) : (s ++ l).drop s.length = l := by
  induction s with
  | nil => rfl
  | cons a as ih => simp [ih]

/-- `containsCI hay pat` decides whether the lowercased `pat` occurs as a
contiguous substring of the lowercased `hay`. -/
theorem containsCI_iff (hay pat : String) :
    containsCI hay pat = true ↔
      ∃ s t, s ++ lowerList pat ++ t = lowerList hay := by
  simp only [containsCI, List.any_eq_true, List.mem_range, isStartOf_iff]
  constructor
  · rintro ⟨i, _, r, hr⟩
    refine ⟨(lowerList hay).take i, r, ?_⟩
    rw [List.append_assoc, hr, List.take_append_drop]
  · rintro ⟨s, t, hst⟩
    refine ⟨s.length, ?_, t, ?_⟩
    · have : (lowerList hay).length = s.length + (lowerList pat ++ t).length := by
        rw [← hst]
        simp
      omega
    · rw [← hst, List.append_assoc, drop_len_append]

/-- Every character of a hexadecimal digit is a hexadecimal character. -/
theorem isHexChar_hexDigit (k : Nat) : isHexChar (hexDigit k) = true := by
  have hall : ∀ c ∈ hexChars, isHexChar c = true := by decide
  unfold hexDigit
  rcases Nat.lt_or_ge k hexChars.length with h | h
  · refine hall _ ?_
    rw [List.getD_eq_getElem _ _ h]
    exact List.getElem_mem h
  · rw [List.getD_eq_default _ _ h]
    decide

/-- Every generated id is a structurally valid identifier. -/
theorem validId_genId (n : Nat) : validId (genId n) = true := by
  unfold validId genId
  rw [Bool.and_eq_true, beq_iff_eq]
  constructor
  · simp [String.length]
  · rw [List.all_eq_true]
    intro c hc
    simp only [String.toList, String.data] at hc
    rw [List.mem_map] at hc
    obtain ⟨i, _, rfl⟩ := hc
    exact isHexChar_hexDigit _

/-- `find?` skips a left part none of whose elements satisfies the
predicate. -/
theorem find?_append_right {α : Type} {p : α → Bool} {l₁ l₂ : List α}
    (h : ∀ a ∈ l₁, p a = false) :
    (l₁ ++ l₂).find? p = l₂.find? p := by
  induction l₁ with
  | nil => rfl
  | cons a as ih =>
    have ha := h a (by simp)
    simp only [List.cons_append, List.find?, ha]
    exact ih (fun x hx => h x (by simp [hx]))

/-- Merging the empty JSON object over a document only refreshes
`updatedAt`. -/
theorem applyUpdate_empty (now : Nat) (d : Tutorial) :
    applyUpdate emptyBody now d = { d with updatedAt := now } := rfl

/-- The empty collection. -/
def db0 : DB := { docs := [], nextId := 0 }

/-- A sample persisted document with the first generated id. -/
def sampleDoc : Tutorial :=
  { _id := genId 0
    title := "Single Tutorial"
    description := some "Test Description"
    published := true
    createdAt := 0
    updatedAt := 0
    __v := 0 }

/-- A collection holding exactly `sampleDoc`. -/
def db1 : DB := { docs := [sampleDoc], nextId := 1 }

/-- The document the Create operation inserts for a request with title `t`:
fields from the body, `published` defaulted to `false`, storage-assigned id
and timestamps. -/
def newDoc (db : DB) (now : Nat) (rb : ReqBody) (t : String) : Tutorial :=
  { _id := genId db.nextId
    title := t
    description := rb.description
    published := rb.published.getD false
    createdAt := now
    updatedAt := now
    __v := 0 }

/-- What Create does on a request whose body carries a non-empty title. -/
theorem create_some_title (db : DB) (now : Nat) (rb : ReqBody) (t : String)
    (ht : rb.title = some t) (hne : t ≠ "") :
    create db now (some rb)
      = ({ docs := db.docs ++ [newDoc db now rb t], nextId := db.nextId + 1 },
         ⟨200, .record (toJSON (newDoc db now rb t))⟩) := by
  simp [create, ht, hne, newDoc]

/-! ### Claims -/

/-- C1, counterexample: the claim quantifies over every Get/Update/Delete by
Id request with a malformed id, but an Update by Id request whose body is
absent/null responds 400 (`"Data to update can not be empty!"`), not 500,
even when the id is malformed: the absent-body check precedes id parsing
(spec §4.1 Update row). -/
theorem C1_counterexample :
    validId "invalid-id" = false ∧
    (update db0 0 "invalid-id" none).2.status = 400 ∧
    ¬(update db0 0 "invalid-id" none).2.status = 500 := by
  decide

/-- C1, amended: for every Get by Id or Delete by Id request with a
syntactically malformed id, and every Update by Id request with a malformed
id and a present (non-null) body, the operation responds 500 — never 404 —
with the operation's specified message, and the collection is unchanged.
(An Update request with an absent/null body responds 400 instead.) -/
theorem C1_malformed_id_500 (db : DB) (now : Nat) (raw : String) (b : ReqBody)
    (h : validId raw = false) :
    findOne db raw = ⟨500, .message ("Error retrieving Tutorial with id=" ++ raw)⟩ ∧
    (update db now raw (some b)).2
      = ⟨500, .message ("Error updating Tutorial with id=" ++ raw)⟩ ∧
    (update db now raw (some b)).1 = db ∧
    (deleteById db raw).2
      = ⟨500, .message ("Could not delete Tutorial with id=" ++ raw)⟩ ∧
    (deleteById db raw).1 = db := by
  refine ⟨?_, ?_, ?_, ?_, ?_⟩ <;>
    simp [findOne, update, deleteById, parseObjectId, h]

/-- C1, witness: the malformed id `"invalid-id"` from the test suite. -/
theorem C1_witness :
    validId "invalid-id" = false ∧
    findOne db1 "invalid-id"
      = ⟨500, .message "Error retrieving Tutorial with id=invalid-id"⟩ ∧
    (update db1 3 "invalid-id" (some emptyBody)).2
      = ⟨500, .message "Error updating Tutorial with id=invalid-id"⟩ ∧
    (deleteById db1 "invalid-id").2
      = ⟨500, .message "Could not delete Tutorial with id=invalid-id"⟩ := by
  have h : validId "invalid-id" = false := by decide
  obtain ⟨h1, h2, -, h3, -⟩ := C1_malformed_id_500 db1 3 "invalid-id" emptyBody h
  exact ⟨h, h1, h2, h3⟩

/-- C2: for every Get by Id, Update by Id (with a present body), or Delete
by Id request whose id is well-formed but matches no persisted record, the
operation responds 404 — never 500 — with the operation's specified
message, and the collection is unchanged. -/
theorem C2_wellformed_missing_404 (db : DB) (now : Nat) (raw : String) (b : ReqBody)
    (hv : validId raw = true)
    (hm : ∀ d ∈ db.docs, (d._id == raw) = false) :
    findOne db raw
      = ⟨404, .message ("Not found Tutorial with id " ++ raw ++ ".")⟩ ∧
    (update db now raw (some b)).2
      = ⟨404, .message ("Cannot update Tutorial with id=" ++ raw ++ ". Maybe Tutorial was not found!")⟩ ∧
    (update db now raw (some b)).1 = db ∧
    (deleteById db raw).2
      = ⟨404, .message ("Cannot delete Tutorial with id=" ++ raw ++ ". Maybe Tutorial was not found!")⟩ ∧
    (deleteById db raw).1 = db := by
  have hp : parseObjectId raw = some raw := by
    simp [parseObjectId, hv]
  have hf : db.docs.find? (fun d => d._id == raw) = none := by
    rw [List.find?_eq_none]
    intro d hd
    simp [hm d hd]
  have he : existsId db raw = false := by
    simp only [existsId, List.any_eq_false]
    intro d hd
    simp [hm d hd]
  refine ⟨?_, ?_, ?_, ?_, ?_⟩ <;>
    simp [findOne, update, deleteById, hp, hf, he]

/-- C2, witness: the well-formed id `genId 7` on a collection that does not
contain it. -/
theorem C2_witness :
    validId (genId 7) = true ∧
    findOne db1 (genId 7)
      = ⟨404, .message ("Not found Tutorial with id " ++ genId 7 ++ ".")⟩ ∧
    (deleteById db1 (genId 7)).2
      = ⟨404, .message ("Cannot delete Tutorial with id=" ++ genId 7 ++ ". Maybe Tutorial was not found!")⟩ := by
  have hv : validId (genId 7) = true := by decide
  have hm : ∀ d ∈ db1.docs, (d._id == genId 7) = false := by decide
  obtain ⟨h1, -, -, h2, -⟩ := C2_wellformed_missing_404 db1 0 (genId 7) emptyBody hv hm
  exact ⟨hv, h1, h2⟩

/-- C3: for every Create request whose body lacks a title (absent or
empty), the operation responds 400 with `"Content can not be empty!"`,
regardless of any other fields present, and no document is inserted. -/
theorem C3_create_missing_title_400 (db : DB) (now : Nat) (body : Option ReqBody)
    (h : body.bind ReqBody.title = none ∨ body.bind ReqBody.title = some "") :
    (create db now body).2 = ⟨400, .message "Content can not be empty!"⟩ ∧
    (create db now body).1 = db := by
  rcases h with h | h <;> simp [create, h]

/-- C3, witness: the test suite's body `{description: "Tutorial without
title"}` with no title, and other fields present. -/
theorem C3_witness :
    (create db0 0 (some { title := none,
                          description := some "Tutorial without title",
                          published := some true })).2
      = ⟨400, .message "Content can not be empty!"⟩ ∧
    (create db0 0 (some { title := none,
                          description := some "Tutorial without title",
                          published := some true })).1 = db0 :=
  C3_create_missing_title_400 db0 0
    (some { title := none, description := some "Tutorial without title",
            published := some true })
    (Or.inl rfl)

/-- C4: for every Create request with a present, non-empty title, the
operation responds 200 with the created record serialized (its `id` field
equal to the assigned storage key; the serialized form has no version
field), the record is appended to the collection, and its `published` field
equals the input value when that was given and is `false` when the field
was omitted. -/
theorem C4_create_valid_200 (db : DB) (now : Nat) (rb : ReqBody) (t : String)
    (ht : rb.title = some t) (hne : t ≠ "") :
    ∃ d : Tutorial,
      (create db now (some rb)).2 = ⟨200, .record (toJSON d)⟩ ∧
      (create db now (some rb)).1.docs = db.docs ++ [d] ∧
      (toJSON d).id = d._id ∧
      (toJSON d).title = t ∧
      (toJSON d).description = rb.description ∧
      (toJSON d).published = rb.published.getD false := by
  refine ⟨{ _id := genId db.nextId, title := t, description := rb.description,
            published := rb.published.getD false, createdAt := now,
            updatedAt := now, __v := 0 }, ?_, ?_, rfl, rfl, rfl, rfl⟩ <;>
    simp [create, ht, hne]

/-- C4, witness: the test suite's create body with `published` omitted
defaults to `false`. -/
theorem C4_witness :
    ∃ d : Tutorial,
      (create db0 5 (some { title := some "Test Tutorial",
                            description := some "This is a test tutorial",
                            published := none })).2 = ⟨200, .record (toJSON d)⟩ ∧
      (create db0 5 (some { title := some "Test Tutorial",
                            description := some "This is a test tutorial",
                            published := none })).1.docs = db0.docs ++ [d] ∧
      (toJSON d).id = d._id ∧
      (toJSON d).title = "Test Tutorial" ∧
      (toJSON d).description = some "This is a test tutorial" ∧
      (toJSON d).published = false :=
  C4_create_valid_200 db0 5
    { title := some "Test Tutorial", description := some "This is a test tutorial",
      published := none }
    "Test Tutorial" rfl (by decide)

/-- C5: List with no `title` query parameter returns 200 with every
persisted record; List with `title=X` returns 200 with exactly the records
whose title contains `X` as a case-insensitive substring (the filter
predicate `containsCI` is characterized as lowercased contiguous-substring
occurrence). -/
theorem C5_list (db : DB) (x : String) :
    findAll db none = ⟨200, .records (db.docs.map toJSON)⟩ ∧
    findAll db (some x)
      = ⟨200, .records ((db.docs.filter (fun d => containsCI d.title x)).map toJSON)⟩ ∧
    ∀ hay : String, (containsCI hay x = true ↔
      ∃ s t, s ++ lowerList x ++ t = lowerList hay) :=
  ⟨rfl, rfl, fun hay => containsCI_iff hay x⟩

/-- C5, witness: on a one-record collection, the unfiltered list returns the
record, a case-insensitively matching filter keeps it, and a non-matching
filter yields the empty array. -/
theorem C5_witness :
    findAll db1 none = ⟨200, .records [toJSON sampleDoc]⟩ ∧
    findAll db1 (some "single") = ⟨200, .records [toJSON sampleDoc]⟩ ∧
    findAll db1 (some "Angular") = ⟨200, .records []⟩ := by
  obtain ⟨h1, h2, -⟩ := C5_list db1 "single"
  obtain ⟨-, h3, -⟩ := C5_list db1 "Angular"
  refine ⟨h1, ?_, ?_⟩
  · rw [h2]
    decide
  · rw [h3]
    decide

/-- C6: on an existing record, Update with the empty JSON object `{}`
succeeds with 200 `"Tutorial was updated successfully."` as a no-op (only
`updatedAt` is refreshed), while Update with an absent/null body is
rejected with 400 `"Data to update can not be empty!"` and the collection is
unchanged. -/
theorem C6_update_empty_object_vs_null (db : DB) (now : Nat) (raw : String)
    (hv : validId raw = true) (he : existsId db raw = true) :
    (update db now raw (some emptyBody)).2
      = ⟨200, .message "Tutorial was updated successfully."⟩ ∧
    (update db now raw (some emptyBody)).1.docs
      = db.docs.map (fun d => if d._id == raw then { d with updatedAt := now } else d) ∧
    update db now raw none = (db, ⟨400, .message "Data to update can not be empty!"⟩) := by
  have hp : parseObjectId raw = some raw := by
    simp [parseObjectId, hv]
  refine ⟨?_, ?_, rfl⟩ <;> simp [update, hp, he, applyUpdate_empty]

/-- C6, witness: on the one-record collection, `{}` is a 200 no-op touching
only `updatedAt`, and a null body is a 400. -/
theorem C6_witness :
    (update db1 9 (genId 0) (some emptyBody)).2
      = ⟨200, .message "Tutorial was updated successfully."⟩ ∧
    (update db1 9 (genId 0) (some emptyBody)).1.docs
      = [{ sampleDoc with updatedAt := 9 }] ∧
    update db1 9 (genId 0) none
      = (db1, ⟨400, .message "Data to update can not be empty!"⟩) := by
  have hv : validId (genId 0) = true := by decide
  have he : existsId db1 (genId 0) = true := by decide
  obtain ⟨h1, h2, h3⟩ := C6_update_empty_object_vs_null db1 9 (genId 0) hv he
  refine ⟨h1, ?_, h3⟩
  rw [h2]
  decide

/-- C7: Delete All responds 200 with `"<N> Tutorials were deleted
successfully!"` where N is exactly the number of documents removed, the
collection is empty afterwards, and repeating Delete All on the result
yields `"0 Tutorials were deleted successfully!"`. -/
theorem C7_deleteAll_count (db : DB) :
    (deleteAll db).2
      = ⟨200, .message (Nat.repr db.docs.length ++ " Tutorials were deleted successfully!")⟩ ∧
    (deleteAll db).1.docs = [] ∧
    (deleteAll (deleteAll db).1).2
      = ⟨200, .message "0 Tutorials were deleted successfully!"⟩ := by
  refine ⟨rfl, rfl, ?_⟩
  simp only [deleteAll]
  rfl

/-- C7, witness: deleting all of a one-record collection reports 1, and
repeating reports 0. -/
theorem C7_witness :
    (deleteAll db1).2 = ⟨200, .message "1 Tutorials were deleted successfully!"⟩ ∧
    (deleteAll (deleteAll db1).1).2
      = ⟨200, .message "0 Tutorials were deleted successfully!"⟩ := by
  obtain ⟨h1, -, h2⟩ := C7_deleteAll_count db1
  exact ⟨h1, h2⟩

/-- C8: round-trip — for every valid Create input on a collection where the
next generated id is fresh, fetching by the id returned from Create responds
200 with a record whose fields match the created input exactly (defaults
applied for omitted optional fields) and whose `id` equals the id used in
the request. -/
theorem C8_roundtrip (db : DB) (now : Nat) (rb : ReqBody) (t : String)
    (ht : rb.title = some t) (hne : t ≠ "")
    (hfresh : ∀ d ∈ db.docs, (d._id == genId db.nextId) = false) :
    ∃ d : Tutorial,
      (create db now (some rb)).2 = ⟨200, .record (toJSON d)⟩ ∧
      d._id = genId db.nextId ∧
      findOne (create db now (some rb)).1 d._id = ⟨200, .record (toJSON d)⟩ ∧
      (toJSON d).id = d._id ∧
      (toJSON d).title = t ∧
      (toJSON d).description = rb.description ∧
      (toJSON d).published = rb.published.getD false := by
  have hcr := create_some_title db now rb t ht hne
  have hid : (newDoc db now rb t)._id = genId db.nextId := rfl
  refine ⟨newDoc db now rb t, ?_, rfl, ?_, rfl, rfl, rfl, rfl⟩
  · rw [hcr]
  · rw [hcr]
    have hp : parseObjectId (genId db.nextId) = some (genId db.nextId) := by
      simp [parseObjectId, validId_genId]
    have hf : (db.docs ++ [newDoc db now rb t]).find?
          (fun x => x._id == genId db.nextId) = some (newDoc db now rb t) := by
      rw [find?_append_right hfresh]
      simp [List.find?, newDoc]
    simp [findOne, hid, hp, hf]

/-- C8, witness: creating the test suite's single tutorial on the empty
collection and fetching it back by the returned id. -/
theorem C8_witness :
    ∃ d : Tutorial,
      (create db0 1 (some { title := some "Single Tutorial",
                            description := some "Test Description",
                            published := some true })).2 = ⟨200, .record (toJSON d)⟩ ∧
      d._id = genId 0 ∧
      findOne (create db0 1 (some { title := some "Single Tutorial",
                                    description := some "Test Description",
                                    published := some true })).1 d._id
        = ⟨200, .record (toJSON d)⟩ ∧
      (toJSON d).id = d._id ∧
      (toJSON d).title = "Single Tutorial" ∧
      (toJSON d).description = some "Test Description" ∧
      (toJSON d).published = (some true).getD false :=
  C8_roundtrip db0 1
    { title := some "Single Tutorial", description := some "Test Description",
      published := some true }
    "Single Tutorial" rfl (by decide) (by decide)

/-- C9: List Published responds 200 with exactly the records whose
`published` field is true (possibly the empty array), and every record in
the returned array has `published = true`. -/
theorem C9_findAllPublished (db : DB) :
    findAllPublished db
      = ⟨200, .records ((db.docs.filter (fun d => d.published)).map toJSON)⟩ ∧
    ∀ j ∈ (db.docs.filter (fun d => d.published)).map toJSON, j.published = true := by
  refine ⟨rfl, ?_⟩
  intro j hj
  rw [List.mem_map] at hj
  obtain ⟨d, hd, rfl⟩ := hj
  rw [List.mem_filter] at hd
  exact hd.2

/-- A sample unpublished document with the second generated id. -/
def sampleDoc2 : Tutorial :=
  { _id := genId 1
    title := "Unpublished Tutorial"
    description := some "Description 2"
    published := false
    createdAt := 0
    updatedAt := 0
    __v := 0 }

/-- A collection holding one published and one unpublished document. -/
def db2 : DB := { docs := [sampleDoc, sampleDoc2], nextId := 2 }

/-- C9, witness: on a mixed collection, List Published returns exactly the
published record, and that record has `published = true`. -/
theorem C9_witness :
    findAllPublished db2 = ⟨200, .records [toJSON sampleDoc]⟩ ∧
    (toJSON sampleDoc).published = true := by
  obtain ⟨h1, h2⟩ := C9_findAllPublished db2
  constructor
  · rw [h1]
    decide
  · exact h2 (toJSON sampleDoc) (by decide)

/-- C10: a GET request for `/api/tutorials/published` is dispatched to List
Published, never to Get by Id with the literal id `"published"`: for every
collection state it yields 200 with an array, while Get by Id at
`"published"` would yield the 500 malformed-identifier error. -/
theorem C10_published_route (db : DB) (now : Nat) (qt : Option String)
    (b : Option ReqBody) :
    handle db now { method := .get, path := ["api", "tutorials", "published"],
                    queryTitle := qt, body := b }
      = (db, findAllPublished db) ∧
    (findAllPublished db).status = 200 ∧
    (∃ l, (findAllPublished db).body = .records l) ∧
    (findOne db "published").status = 500 := by
  refine ⟨rfl, rfl, ⟨_, rfl⟩, ?_⟩
  have h : validId "published" = false := by decide
  simp [findOne, parseObjectId, h]

/-- C10, witness: on the mixed collection, the published route returns the
200 array while Get by Id at `"published"` is a 500. -/
theorem C10_witness :
    handle db2 0 { method := .get, path := ["api", "tutorials", "published"],
                   queryTitle := none, body := none }
      = (db2, ⟨200, .records [toJSON sampleDoc]⟩) ∧
    (findOne db2 "published").status = 500 := by
  obtain ⟨h1, -, -, h4⟩ := C10_published_route db2 0 none none
  refine ⟨?_, h4⟩
  rw [h1]
  decide

end TutorialApi
